import Mathlib

/-!
Shallow embedding of the clawdbot-railway-template edge service
(src/server.js): the process supervisor, the auth gate, the reverse
proxy (HTTP and protocol upgrades), and the backup import subsystem.
Definitions mirror the JavaScript source; the theorems settle the
specification claims against them.

Strings are embedded through executable character-list helpers
(splitChars, strLeadsWith, strTrim, strToLower) that mirror the
JavaScript string methods used by the source, so every definition
evaluates on concrete inputs.
-/

namespace Clawdbot

/-- Executable mirror of JavaScript String.prototype.startsWith:
true when the second list begins with the first. -/
def leadsWith : List Char → List Char → Bool
  | [], _ => true
  | _ :: _, [] => false
  | p :: ps, c :: cs => p == c && leadsWith ps cs

/-- String-level wrapper for leadsWith. -/
def strLeadsWith (pat s : String) : Bool :=
  leadsWith pat.toList s.toList

/-- Executable mirror of JavaScript String.prototype.split for a
one-character separator, written with an explicit accumulator. -/
def splitChars (sep : Char) : List Char → List Char → List (List Char)
  | [], acc => [acc.reverse]
  | c :: rest, acc =>
    if c == sep then acc.reverse :: splitChars sep rest []
    else splitChars sep rest (c :: acc)

/-- Executable mirror of JavaScript String.prototype.trim. -/
def trimChars (cs : List Char) : List Char :=
  ((cs.dropWhile Char.isWhitespace).reverse.dropWhile Char.isWhitespace).reverse

/-- String-level wrapper for trimChars. -/
def strTrim (s : String) : String :=
  ⟨trimChars s.toList⟩

/-- Executable mirror of JavaScript String.prototype.toLowerCase on the
ASCII handles this service compares. -/
def strToLower (s : String) : String :=
  ⟨s.toList.map Char.toLower⟩

/-! ## Backup import: tar entry path safety (server.js lines 1128-1137) -/

/-- Mirrors the drive-letter test inside looksSafeTarPath
(server.js line 1133): the source regex matches one ASCII letter,
then a colon, then a slash or backslash, at the start of the string. -/
def driveQualified (p : String) : Bool :=
  match p.toList with
  | c1 :: c2 :: c3 :: _ => c1.isAlpha && c2 == ':' && (c3 == '/' || c3 == '\\')
  | _ => false

/-- Mirrors looksSafeTarPath (server.js lines 1128-1137): empty paths,
paths starting with a separator, drive-qualified paths and paths whose
slash-split segments include ".." are rejected; everything else passes. -/
def looksSafeTarPath (p : String) : Bool :=
  if p.isEmpty then false
  else if strLeadsWith "/" p || strLeadsWith "\\" p then false
  else if driveQualified p then false
  else if (splitChars '/' p.toList []).contains ['.', '.'] then false
  else true

/-- Claim-side predicate written from the specification words: an entry
is rejected when its path is empty, an absolute path, a drive-qualified
path, or contains a parent-directory traversal segment (a ".." component
of the slash-separated path). -/
def specRejectsEntry (p : String) : Bool :=
  p.isEmpty || (strLeadsWith "/" p || strLeadsWith "\\" p) || driveQualified p ||
    (splitChars '/' p.toList []).contains ['.', '.']

/-- Mirrors the tar.x filter at server.js lines 1185-1195: during import
extraction an entry is written exactly when looksSafeTarPath accepts its
path; rejected entries are skipped and the rest of the archive continues
extracting. -/
def tarExtractWritten (entries : List String) : List String :=
  entries.filter looksSafeTarPath

/-! ## Process supervisor (server.js lines 128-258)

The wrapper is a single-threaded event loop: each ensureGatewayRunning
call runs its synchronous phase to completion before any other call runs
(the coordinator body down to and including childProcess.spawn at line
205 contains no await suspension, so the spawn and the assignments to
gatewayProc and gatewayStarting are atomic with the call). -/

/-- Outcome observed by a caller of ensureGatewayRunning. -/
inductive GatewayOutcome where
  | ok
  | notConfigured
  | readinessTimeout
deriving DecidableEq

/-- Supervisor state: ConfiguredFlag, whether gatewayProc is non-null,
whether gatewayStarting is non-null, and how many spawns occurred. -/
structure SupState where
  configured : Bool
  proc : Bool
  starting : Bool
  spawnCount : Nat
deriving DecidableEq

/-- What a call's synchronous phase produced: an immediate result, or an
attachment to the in-flight coordinator (the call awaits gatewayStarting). -/
inductive CallPhase where
  | immediate (o : GatewayOutcome)
  | attached
deriving DecidableEq

/-- Mirrors the synchronous phase of ensureGatewayRunning (server.js lines
228-244): not configured returns a failure; a non-null gatewayProc returns
ok immediately; a null gatewayStarting creates the coordinator, whose body
runs startGateway (lines 159-226) synchronously and spawns the process;
otherwise the call attaches to the existing coordinator. -/
def ensureGatewayRunningSync (s : SupState) : SupState × CallPhase :=
  if !s.configured then (s, CallPhase.immediate GatewayOutcome.notConfigured)
  else if s.proc then (s, CallPhase.immediate GatewayOutcome.ok)
  else if !s.starting then
    ({ s with proc := true, starting := true, spawnCount := s.spawnCount + 1 },
      CallPhase.attached)
  else (s, CallPhase.attached)

/-- Mirrors the gatewayProc exit and spawn-error handlers (server.js lines
217-225): the handle is cleared as soon as the notification arrives. -/
def onGatewayExit (s : SupState) : SupState :=
  { s with proc := false }

/-- Result an attached caller observes once the coordinator settles:
waitForGatewayReady succeeded, or the readiness timeout throw
(server.js lines 234-237). -/
def resolvePhase (readyOk : Bool) : CallPhase → GatewayOutcome
  | CallPhase.immediate o => o
  | CallPhase.attached =>
    if readyOk then GatewayOutcome.ok else GatewayOutcome.readinessTimeout

/-- Runs the synchronous phases of n queued ensureGatewayRunning calls in
arrival order, threading the supervisor state. -/
def runSyncPhases : Nat → SupState → SupState × List CallPhase
  | 0, s => (s, [])
  | n + 1, s =>
    let r := ensureGatewayRunningSync s
    let rest := runSyncPhases n r.1
    (rest.1, r.2 :: rest.2)

/-- n concurrent ensureGatewayRunning calls followed by the settlement of
the in-flight coordinator: readyOk is the waitForGatewayReady result; the
finally-block clears gatewayStarting (server.js lines 238-240); a timeout
throws without touching gatewayProc (only the exit/error handlers do). -/
def runConcurrent (n : Nat) (configured readyOk : Bool) : SupState × List GatewayOutcome :=
  let s0 : SupState := ⟨configured, false, false, 0⟩
  let r := runSyncPhases n s0
  ({ r.1 with starting := false }, r.2.map (resolvePhase readyOk))

/-! ## Protocol upgrades (server.js lines 1262-1296) -/

/-- What the upgrade handler finally does with the raw connection. -/
inductive UpgradeAction where
  | destroySocket
  | proxyWs
deriving DecidableEq

/-- Observable effects of one upgrade request: the chosen action, whether
any byte was forwarded to the backend, and whether any response byte was
written to the client connection. -/
structure UpgradeResult where
  action : UpgradeAction
  bytesForwardedToBackend : Bool
  responseWrittenToClient : Bool
deriving DecidableEq

/-- Mirrors server.on upgrade (server.js lines 1262-1296): an unconfigured
instance destroys the socket; with GitHub OAuth configured, a missing
session user (parsed synchronously from the raw request cookie) destroys
the socket; an ensureGatewayRunning failure destroys the socket; only then
is the upgrade proxied to the backend. socket.destroy writes nothing. -/
def handleUpgrade (configured authConfigured hasSessionUser ensureOk : Bool) : UpgradeResult :=
  if !configured then ⟨UpgradeAction.destroySocket, false, false⟩
  else if authConfigured && !hasSessionUser then ⟨UpgradeAction.destroySocket, false, false⟩
  else if !ensureOk then ⟨UpgradeAction.destroySocket, false, false⟩
  else ⟨UpgradeAction.proxyWs, true, true⟩

/-! ## Auth gate (server.js lines 277-309 and 441-457) -/

/-- Environment-derived auth configuration: GITHUB_CLIENT_ID,
GITHUB_CLIENT_SECRET, and the parsed GITHUB_ALLOWED_USERS list
(already trimmed and lowercased at parse time, lines 40-43). -/
structure AuthConfig where
  githubClientId : String
  githubClientSecret : String
  githubAllowedUsers : List String
deriving DecidableEq

/-- Mirrors isAuthConfigured (server.js lines 277-279). -/
def isAuthConfigured (cfg : AuthConfig) : Bool :=
  !cfg.githubClientId.isEmpty && !cfg.githubClientSecret.isEmpty

/-- The request data requireAuth inspects: target path, the session user
login handle if a valid session is attached, and whether the accept
header includes application/json. -/
structure AuthRequest where
  path : String
  sessionUser : Option String
  acceptsJson : Bool
deriving DecidableEq

/-- Verdict of the auth gate middleware. -/
inductive AuthVerdict where
  | next
  | unauthorized401
  | redirectLogin
deriving DecidableEq

/-- Mirrors the public-path test of requireAuth (server.js lines 283-289). -/
def publicAuthPath (p : String) : Bool :=
  p == "/auth/github" || p == "/auth/github/callback" ||
    p == "/auth/login" || p == "/setup/healthz"

/-- Mirrors requireAuth (server.js lines 281-309): public paths pass; with
no auth provider configured everything passes; a present session user
passes; otherwise api-classified requests get 401 and page requests get a
redirect to the login page. The allowlist is not consulted here. -/
def requireAuth (cfg : AuthConfig) (req : AuthRequest) : AuthVerdict :=
  if publicAuthPath req.path then AuthVerdict.next
  else if !(isAuthConfigured cfg) then AuthVerdict.next
  else if req.sessionUser.isSome then AuthVerdict.next
  else if strLeadsWith "/setup/api/" req.path || req.acceptsJson then
    AuthVerdict.unauthorized401
  else AuthVerdict.redirectLogin

/-- What the GitHub OAuth callback does after identifying the user. -/
inductive CallbackResult where
  | redirectDenied
  | sessionSaved (login : String)
deriving DecidableEq

/-- Mirrors the allowlist check in the OAuth callback (server.js lines
441-457): the lowercased login must be in GITHUB_ALLOWED_USERS when that
list is non-empty (the source tests .length > 0), otherwise the login is
redirected away with an access-denied error and no session is saved. -/
def githubCallbackAllowlistCheck (cfg : AuthConfig) (login : String) : CallbackResult :=
  let username := strToLower login
  if !cfg.githubAllowedUsers.isEmpty && !(cfg.githubAllowedUsers.contains username) then
    CallbackResult.redirectDenied
  else CallbackResult.sessionSaved login

/-! ## Debug console (server.js lines 937-1010) -/

/-- CLI invocations the console handlers can spawn through runCmd. -/
inductive ConsoleSpawn where
  | cliVersion
  | cliStatus
  | cliHealth
  | cliDoctor
  | cliLogsTail (lines : Int)
  | cliConfigGet (arg : String)
deriving DecidableEq

/-- Wrapper-managed gateway lifecycle actions of the console. -/
inductive GatewayLifecycle where
  | restartGw
  | stopGw
  | startGw
deriving DecidableEq

/-- Observable result of one console request: HTTP status, structured
error if any, CLI processes spawned, and gateway lifecycle action taken. -/
structure ConsoleResult where
  status : Nat
  error : Option String
  spawned : List ConsoleSpawn
  lifecycle : Option GatewayLifecycle
deriving DecidableEq

/-- Mirrors ALLOWED_CONSOLE_COMMANDS (server.js lines 937-950). -/
def ALLOWED_CONSOLE_COMMANDS : List String :=
  ["gateway.restart", "gateway.stop", "gateway.start",
   "openclaw.version", "openclaw.status", "openclaw.health",
   "openclaw.doctor", "openclaw.logs.tail", "openclaw.config.get"]

/-- Digits-to-number helper for the parseInt mirror. -/
def digitsToNat (ds : List Char) : Nat :=
  ds.foldl (fun n c => n * 10 + (c.toNat - 48)) 0

/-- Mirror of JavaScript parseInt(s, 10) on an already-trimmed string:
an optional leading minus sign followed by a longest digit run; no
digits means NaN, modelled as none. -/
def jsParseIntPrefix (cs : List Char) : Option Int :=
  match cs with
  | '-' :: rest =>
    let ds := rest.takeWhile Char.isDigit
    if ds.isEmpty then none else some (-(digitsToNat ds : Int))
  | _ =>
    let ds := cs.takeWhile Char.isDigit
    if ds.isEmpty then none else some ((digitsToNat ds : Int))

/-- Mirrors the line-count clamp of openclaw.logs.tail (server.js line
996): Math.max(50, Math.min(1000, parseInt(arg or 200) or 200)); a NaN
or zero parse falls back to 200 through the JavaScript or-operator. -/
def logsTailLines (arg : String) : Int :=
  let parsed := jsParseIntPrefix (if arg.isEmpty then "200" else arg).toList
  let n : Int :=
    match parsed with
    | none => 200
    | some k => if k == 0 then 200 else k
  max 50 (min 1000 n)

/-- Mirrors the console dispatch (server.js lines 952-1010) on
already-trimmed command and argument strings: commands outside the
allowlist are rejected with a structured error before anything runs;
each allowlisted command performs its lifecycle action or CLI spawn,
except openclaw.config.get with an empty argument, which is rejected
with a missing-path error. cliOk abstracts the spawned CLI exit code. -/
def consoleRunTrimmed (cmd arg : String) (cliOk : Bool) : ConsoleResult :=
  if !(ALLOWED_CONSOLE_COMMANDS.contains cmd) then
    ⟨400, some "Command not allowed", [], none⟩
  else if cmd == "gateway.restart" then ⟨200, none, [], some GatewayLifecycle.restartGw⟩
  else if cmd == "gateway.stop" then ⟨200, none, [], some GatewayLifecycle.stopGw⟩
  else if cmd == "gateway.start" then ⟨200, none, [], some GatewayLifecycle.startGw⟩
  else if cmd == "openclaw.version" then
    ⟨if cliOk then 200 else 500, none, [ConsoleSpawn.cliVersion], none⟩
  else if cmd == "openclaw.status" then
    ⟨if cliOk then 200 else 500, none, [ConsoleSpawn.cliStatus], none⟩
  else if cmd == "openclaw.health" then
    ⟨if cliOk then 200 else 500, none, [ConsoleSpawn.cliHealth], none⟩
  else if cmd == "openclaw.doctor" then
    ⟨if cliOk then 200 else 500, none, [ConsoleSpawn.cliDoctor], none⟩
  else if cmd == "openclaw.logs.tail" then
    ⟨if cliOk then 200 else 500, none, [ConsoleSpawn.cliLogsTail (logsTailLines arg)], none⟩
  else if cmd == "openclaw.config.get" then
    if arg.isEmpty then ⟨400, some "Missing config path", [], none⟩
    else ⟨if cliOk then 200 else 500, none, [ConsoleSpawn.cliConfigGet arg], none⟩
  else ⟨400, some "Unhandled command", [], none⟩

/-- Mirrors the console endpoint entry (server.js lines 953-955): the raw
payload strings are trimmed before dispatch. -/
def consoleRun (cmdRaw argRaw : String) (cliOk : Bool) : ConsoleResult :=
  consoleRunTrimmed (strTrim cmdRaw) (strTrim argRaw) cliOk

/-- A console request executed its command when it performed a gateway
lifecycle action or spawned a CLI process. -/
def consoleExecutes (r : ConsoleResult) : Bool :=
  r.lifecycle.isSome || !r.spawned.isEmpty

/-! ## Backup import endpoint (server.js lines 1139-1209) -/

/-- The fixed import payload ceiling (server.js line 1176): 250 MB. -/
def IMPORT_MAX_BYTES : Nat := 250 * 1024 * 1024

/-- Accumulator loop of readBodyBuffer (server.js lines 1139-1155): the
running total is checked against maxBytes as each chunk arrives and the
read rejects as soon as it exceeds the ceiling. -/
def readBodyBufferAux (maxBytes : Nat) : Nat → List Nat → Option Nat
  | acc, [] => some acc
  | acc, c :: rest =>
    if maxBytes < acc + c then none else readBodyBufferAux maxBytes (acc + c) rest

/-- Mirrors readBodyBuffer on the list of incoming chunk sizes. -/
def readBodyBuffer (chunks : List Nat) (maxBytes : Nat) : Option Nat :=
  readBodyBufferAux maxBytes 0 chunks

/-- Inputs determining one import request: whether the state and workspace
directories resolve under /data, whether the gateway process is running on
entry, the body chunk sizes, the archive entry paths, whether tar.x with
strict mode throws partway (after entriesBeforeThrow entries), whether the
config artifact exists after extraction, and whether the restart's
readiness wait succeeds. -/
structure ImportRequest where
  stateUnderData : Bool
  wsUnderData : Bool
  gatewayProcRunning : Bool
  chunks : List Nat
  entries : List String
  extractThrows : Bool
  entriesBeforeThrow : Nat
  configuredAfter : Bool
  restartReadyOk : Bool
deriving DecidableEq

/-- Ordered side effects of the import handler. -/
inductive ImportEvent where
  | stopGateway
  | readBody
  | writeTmp
  | extract
  | removeTmp
  | restartGateway
deriving DecidableEq

/-- Observable outcome of one import request. -/
structure ImportOutcome where
  status : Nat
  events : List ImportEvent
  tmpWritten : Bool
  tmpRemoved : Bool
  extractionAttempted : Bool
  writtenEntries : List String
  restarted : Bool
  gatewayProcAfter : Bool
deriving DecidableEq

/-- Mirrors the import endpoint (server.js lines 1159-1209): refuse unless
both directories are under /data; stop the gateway; buffer the body with
the 250 MB ceiling (a too-large rejection propagates to the catch block as
a 500); reject an empty body with 400; write the temp file and extract
with the looksSafeTarPath filter; a strict-mode extraction throw jumps to
the catch block, skipping the rmSync at line 1197; on success the temp
file is removed and, if now configured, the gateway is restarted. -/
def importHandler (r : ImportRequest) : ImportOutcome :=
  if !(r.stateUnderData && r.wsUnderData) then
    ⟨400, [], false, false, false, [], false, r.gatewayProcRunning⟩
  else
    match readBodyBuffer r.chunks IMPORT_MAX_BYTES with
    | none =>
      ⟨500, [ImportEvent.stopGateway, ImportEvent.readBody],
        false, false, false, [], false, false⟩
    | some total =>
      if total == 0 then
        ⟨400, [ImportEvent.stopGateway, ImportEvent.readBody],
          false, false, false, [], false, false⟩
      else if r.extractThrows then
        ⟨500, [ImportEvent.stopGateway, ImportEvent.readBody,
            ImportEvent.writeTmp, ImportEvent.extract],
          true, false, true,
          tarExtractWritten (r.entries.take r.entriesBeforeThrow), false, false⟩
      else if r.configuredAfter then
        ⟨if r.restartReadyOk then 200 else 500,
          [ImportEvent.stopGateway, ImportEvent.readBody, ImportEvent.writeTmp,
            ImportEvent.extract, ImportEvent.removeTmp, ImportEvent.restartGateway],
          true, true, true, tarExtractWritten r.entries, true, true⟩
      else
        ⟨200,
          [ImportEvent.stopGateway, ImportEvent.readBody, ImportEvent.writeTmp,
            ImportEvent.extract, ImportEvent.removeTmp],
          true, true, true, tarExtractWritten r.entries, false, false⟩

/-- Concrete oversized import request used as a witness input. -/
def oversizeImportReq : ImportRequest :=
  ⟨true, true, true, [IMPORT_MAX_BYTES + 1], [], false, 0, true, true⟩

/-- Concrete import request whose extraction throws, used for the
temp-file claim. -/
def throwingImportReq : ImportRequest :=
  ⟨true, true, true, [10], ["state/a.txt"], true, 0, true, true⟩

/-- Concrete import request that reaches extraction and succeeds. -/
def okImportReq : ImportRequest :=
  ⟨true, true, true, [10], ["state/a.txt"], false, 0, false, true⟩

/-! ## Catch-all proxy middleware (server.js lines 1222-1237) -/

/-- What the catch-all middleware responds with. -/
inductive ForwardAction where
  | redirectSetup
  | proxied
  | unavailable503
deriving DecidableEq

/-- Result of the catch-all middleware plus whether any connection attempt
to the backend internal address is made for the request (the proxy forward
and the ensureGatewayRunning readiness probes both contact it). -/
structure ForwardResult where
  action : ForwardAction
  backendContacted : Bool
deriving DecidableEq

/-- Mirrors the catch-all middleware (server.js lines 1222-1237): while
unconfigured, any path outside /setup is redirected to /setup and the
backend is never contacted; unconfigured /setup-paths fall through to the
proxy; when configured, ensureGatewayRunning runs first and its failure
yields a 503. -/
def forwardMiddleware (configured ensureOk : Bool) (path : String) : ForwardResult :=
  if !configured && !(strLeadsWith "/setup" path) then ⟨ForwardAction.redirectSetup, false⟩
  else if configured then
    if ensureOk then ⟨ForwardAction.proxied, true⟩
    else ⟨ForwardAction.unavailable503, true⟩
  else ⟨ForwardAction.proxied, true⟩

/-! ## Theorems -/

theorem looksSafe_eq_not_rejects (p : String) :
    looksSafeTarPath p = !(specRejectsEntry p) := by
  unfold looksSafeTarPath specRejectsEntry
  cases h1 : p.isEmpty <;>
    cases h2 : strLeadsWith "/" p <;>
      cases h3 : strLeadsWith "\\" p <;>
        cases h4 : driveQualified p <;>
          cases h5 : (splitChars '/' p.toList []).contains ['.', '.'] <;>
            simp [h1, h2, h3, h4, h5]

/-- C2: every archive entry is filtered through the path-safety predicate:
an entry is skipped (not written) if and only if its path is empty,
absolute, drive-qualified, or contains a parent-directory traversal
segment; in the sample archive the entry "../../etc/passwd" writes no
file while the remaining safe entries still extract, and every written
entry satisfies the safety predicate, hence stays under StorageRoot. -/
theorem restore_filter_skips_iff_spec_rejects :
    (∀ p, looksSafeTarPath p = false ↔ specRejectsEntry p = true) ∧
    tarExtractWritten
        ["../../etc/passwd", ".openclaw/openclaw.json", "workspace/notes.txt"] =
      [".openclaw/openclaw.json", "workspace/notes.txt"] ∧
    (∀ entries p, p ∈ tarExtractWritten entries → looksSafeTarPath p = true) := by
  refine ⟨fun p => ?_, by decide, fun entries p hp => ?_⟩
  · rw [looksSafe_eq_not_rejects]
    cases specRejectsEntry p <;> simp
  · exact (List.mem_filter.mp hp).2

/-- Witness for the filter claim: the equivalence applied at the concrete
traversal entry yields that "../../etc/passwd" is skipped. -/
theorem restore_filter_witness :
    looksSafeTarPath "../../etc/passwd" = false :=
  (restore_filter_skips_iff_spec_rejects.1 "../../etc/passwd").mpr (by decide)

theorem runSyncPhases_runningState (n : Nat) :
    runSyncPhases n ⟨true, true, true, 1⟩ =
      (⟨true, true, true, 1⟩, List.replicate n (CallPhase.immediate GatewayOutcome.ok)) := by
  induction n with
  | zero => rfl
  | succ n ih => simp [runSyncPhases, ensureGatewayRunningSync, ih, List.replicate]

theorem runConcurrent_succ (n : Nat) (readyOk : Bool) :
    runConcurrent (n + 1) true readyOk =
      (⟨true, true, false, 1⟩,
        (if readyOk then GatewayOutcome.ok else GatewayOutcome.readinessTimeout) ::
          List.replicate n GatewayOutcome.ok) := by
  simp [runConcurrent, runSyncPhases, ensureGatewayRunningSync, runSyncPhases_runningState,
    resolvePhase, List.map_replicate]

/-- C3 counterexample: two concurrent calls issued while the backend is
Stopped, with the readiness wait timing out: a single spawn occurs, yet
the first caller observes the readiness failure while the second already
observed success, so the callers do not all observe the same outcome. -/
theorem ensureRunning_outcomes_diverge :
    (runConcurrent 2 true false).2 =
      [GatewayOutcome.readinessTimeout, GatewayOutcome.ok] ∧
    (runConcurrent 2 true false).1.spawnCount = 1 ∧
    GatewayOutcome.readinessTimeout ≠ GatewayOutcome.ok := by
  decide

/-- C3 as amended: for N = n+1 concurrent calls issued while the backend
is Stopped and configured, exactly one spawn occurs; the first caller
creates the coordinator and observes its result, while every later caller
observes success immediately because the process handle is already set;
hence all callers observe the same outcome exactly when the start
succeeds. -/
theorem ensureRunning_single_flight (n : Nat) (readyOk : Bool) :
    (runConcurrent (n + 1) true readyOk).1.spawnCount = 1 ∧
    (runConcurrent (n + 1) true readyOk).2 =
      (if readyOk then GatewayOutcome.ok else GatewayOutcome.readinessTimeout) ::
        List.replicate n GatewayOutcome.ok ∧
    (readyOk = true →
      ∀ o ∈ (runConcurrent (n + 1) true readyOk).2, o = GatewayOutcome.ok) := by
  refine ⟨by rw [runConcurrent_succ], by rw [runConcurrent_succ], fun h o ho => ?_⟩
  subst h
  rw [runConcurrent_succ] at ho
  simp at ho
  rcases ho with ho | ho
  · exact ho
  · exact ho.2

/-- Witness for the single-flight theorem at three callers with a
successful start: one spawn and all outcomes ok. -/
theorem ensureRunning_single_flight_witness :
    (runConcurrent 3 true true).1.spawnCount = 1 ∧
    ∀ o ∈ (runConcurrent 3 true true).2, o = GatewayOutcome.ok :=
  ⟨(ensureRunning_single_flight 2 true).1,
    (ensureRunning_single_flight 2 true).2.2 rfl⟩

/-- C7 counterexample: one call from the Stopped configured state whose
readiness wait times out: the caller observes the timeout failure, but
the backend handle is still set (the process is not killed and the handle
is not cleared), and the next call returns success immediately instead of
initiating a fresh start. -/
theorem readiness_timeout_no_fresh_start :
    (runConcurrent 1 true false).2 = [GatewayOutcome.readinessTimeout] ∧
    (runConcurrent 1 true false).1.proc = true ∧
    ensureGatewayRunningSync (runConcurrent 1 true false).1 =
      ((runConcurrent 1 true false).1, CallPhase.immediate GatewayOutcome.ok) := by
  decide

/-- C7 as amended: when the readiness poll times out, the first caller
fails with the readiness-timeout error and the coordinator is discarded,
but the handle remains set and the spawned process is left running, so
the next caller returns success immediately without a fresh start; only
after an exit notification clears the handle does the next call initiate
a fresh start attempt. -/
theorem readiness_timeout_keeps_handle (n : Nat) :
    (runConcurrent (n + 1) true false).2.head? = some GatewayOutcome.readinessTimeout ∧
    (runConcurrent (n + 1) true false).1.starting = false ∧
    (runConcurrent (n + 1) true false).1.proc = true ∧
    ensureGatewayRunningSync (runConcurrent (n + 1) true false).1 =
      ((runConcurrent (n + 1) true false).1, CallPhase.immediate GatewayOutcome.ok) ∧
    (ensureGatewayRunningSync (onGatewayExit (runConcurrent (n + 1) true false).1)).2 =
      CallPhase.attached ∧
    (ensureGatewayRunningSync (onGatewayExit (runConcurrent (n + 1) true false).1)).1.spawnCount =
      2 := by
  rw [runConcurrent_succ]
  refine ⟨rfl, rfl, rfl, ?_, ?_, ?_⟩ <;> simp [ensureGatewayRunningSync, onGatewayExit]

/-- C1: no byte reaches the backend on an upgrade connection unless the
configuration check and, when an auth provider is configured, the
session-validity check have passed; an absent session with a configured
auth provider terminates the raw connection without any response bytes,
in both the configured and unconfigured states. -/
theorem upgrade_gated (c a s e : Bool) :
    ((handleUpgrade c a s e).bytesForwardedToBackend = true →
      c = true ∧ (a = true → s = true)) ∧
    (a = true ∧ s = false →
      handleUpgrade c a s e =
        ⟨UpgradeAction.destroySocket, false, false⟩) := by
  cases c <;> cases a <;> cases s <;> cases e <;> simp [handleUpgrade]

/-- Witness for the upgrade theorem: sessionless upgrades with auth
configured are silently destroyed in both the configured and the
unconfigured state. -/
theorem upgrade_gated_witness :
    handleUpgrade true true false true = ⟨UpgradeAction.destroySocket, false, false⟩ ∧
    handleUpgrade false true false true = ⟨UpgradeAction.destroySocket, false, false⟩ :=
  ⟨(upgrade_gated true true false true).2 ⟨rfl, rfl⟩,
    (upgrade_gated false true false true).2 ⟨rfl, rfl⟩⟩

/-- C4 counterexample: with GitHub OAuth configured and a non-empty
allowlist containing only alice, an api request carrying a valid session
for mallory passes the auth gate, whereas the same request with no
session gets 401 — the two are not treated identically. -/
theorem gate_ignores_allowlist :
    requireAuth ⟨"client-id", "client-secret", ["alice"]⟩
        ⟨"/setup/api/status", some "mallory", false⟩ = AuthVerdict.next ∧
    requireAuth ⟨"client-id", "client-secret", ["alice"]⟩
        ⟨"/setup/api/status", none, false⟩ = AuthVerdict.unauthorized401 ∧
    AuthVerdict.next ≠ AuthVerdict.unauthorized401 := by
  decide

/-- C4 as amended: the allowlist is enforced only at login time: the auth
gate passes any request with a present session user without consulting
the allowlist, while the OAuth callback rejects (with an access-denied
redirect, saving no session) any login whose lowercased handle is absent
from a non-empty allowlist. -/
theorem allowlist_enforced_at_login_only (cfg : AuthConfig) (req : AuthRequest) (u : String) :
    (isAuthConfigured cfg = true → req.sessionUser = some u →
      requireAuth cfg req = AuthVerdict.next) ∧
    (∀ login, cfg.githubAllowedUsers.isEmpty = false →
      cfg.githubAllowedUsers.contains (strToLower login) = false →
      githubCallbackAllowlistCheck cfg login = CallbackResult.redirectDenied) := by
  constructor
  · intro hc hs
    unfold requireAuth
    rw [hs]
    simp [hc]
  · intro login hne hcon
    have hnotmem : strToLower login ∉ cfg.githubAllowedUsers := by
      simpa using hcon
    unfold githubCallbackAllowlistCheck
    simp [hne, hnotmem]

/-- Witness for the login-time allowlist theorem: a session for mallory
passes the gate on a page path, and a login by Mallory is denied by the
callback under the allowlist containing only alice. -/
theorem allowlist_enforced_at_login_only_witness :
    requireAuth ⟨"client-id", "client-secret", ["alice"]⟩
        ⟨"/openclaw", some "mallory", false⟩ = AuthVerdict.next ∧
    githubCallbackAllowlistCheck ⟨"client-id", "client-secret", ["alice"]⟩ "Mallory" =
      CallbackResult.redirectDenied :=
  ⟨(allowlist_enforced_at_login_only ⟨"client-id", "client-secret", ["alice"]⟩
      ⟨"/openclaw", some "mallory", false⟩ "mallory").1 (by decide) rfl,
    (allowlist_enforced_at_login_only ⟨"client-id", "client-secret", ["alice"]⟩
      ⟨"/openclaw", some "mallory", false⟩ "mallory").2 "Mallory" (by decide) (by decide)⟩

/-- C6: while the configuration artifact is absent, every request whose
path is outside the setup surface is redirected to /setup and no
connection attempt to the backend internal address is made for it. -/
theorem unconfigured_redirects_without_backend_contact
    (configured ensureOk : Bool) (p : String) :
    configured = false → strLeadsWith "/setup" p = false →
    forwardMiddleware configured ensureOk p = ⟨ForwardAction.redirectSetup, false⟩ := by
  intro h1 h2
  subst h1
  simp [forwardMiddleware, h2]

/-- Witness for the unconfigured redirect at the concrete path /openclaw. -/
theorem unconfigured_redirects_witness :
    forwardMiddleware false true "/openclaw" = ⟨ForwardAction.redirectSetup, false⟩ :=
  unconfigured_redirects_without_backend_contact false true "/openclaw" rfl (by decide)

/-- C9 counterexample: openclaw.config.get is a member of the allowlist,
yet with an empty argument the endpoint rejects it with a missing-path
error and executes nothing, so command execution is not equivalent to
allowlist membership. -/
theorem console_allowlisted_not_executed :
    ALLOWED_CONSOLE_COMMANDS.contains "openclaw.config.get" = true ∧
    consoleRun "openclaw.config.get" "" true =
      ⟨400, some "Missing config path", [], none⟩ ∧
    consoleExecutes (consoleRun "openclaw.config.get" "" true) = false := by
  decide

/-- C9 as amended: a command name outside the fixed allowlist is rejected
with the structured command-not-allowed response and nothing is spawned
or acted on; every allowlisted command executes, except openclaw.config.get
with an empty argument, which is rejected with a missing-path error. -/
theorem console_allowlist_gates_execution (cmd arg : String) (cliOk : Bool) :
    (ALLOWED_CONSOLE_COMMANDS.contains (strTrim cmd) = false →
      consoleRun cmd arg cliOk = ⟨400, some "Command not allowed", [], none⟩) ∧
    (ALLOWED_CONSOLE_COMMANDS.contains (strTrim cmd) = true →
      (strTrim cmd ≠ "openclaw.config.get" ∨ (strTrim arg).isEmpty = false) →
      consoleExecutes (consoleRun cmd arg cliOk) = true) := by
  constructor
  · intro h
    unfold consoleRun consoleRunTrimmed
    rw [h]
    rfl
  · intro h hor
    have hmem : strTrim cmd ∈ ALLOWED_CONSOLE_COMMANDS := List.mem_of_elem_eq_true h
    unfold consoleRun
    simp only [ALLOWED_CONSOLE_COMMANDS, List.mem_cons, List.not_mem_nil, or_false] at hmem
    rcases hmem with h9 | h9 | h9 | h9 | h9 | h9 | h9 | h9 | h9 <;> rw [h9] <;>
      first
        | rfl
        | (rcases hor with hne | hargne
           · exact absurd h9 hne
           · unfold consoleRunTrimmed
             rw [hargne]
             rfl)

/-- Witness for the console gate: a disallowed command is rejected with
the structured error, and an allowlisted status command executes. -/
theorem console_allowlist_gates_execution_witness :
    consoleRun "rm -rf /" "" true = ⟨400, some "Command not allowed", [], none⟩ ∧
    consoleExecutes (consoleRun "openclaw.status" "" true) = true :=
  ⟨(console_allowlist_gates_execution "rm -rf /" "" true).1 (by decide),
    (console_allowlist_gates_execution "openclaw.status" "" true).2 (by decide)
      (Or.inl (by decide))⟩

theorem readBodyBufferAux_overflow (m : Nat) :
    ∀ (l : List Nat) (acc : Nat), acc ≤ m → m < acc + l.sum →
      readBodyBufferAux m acc l = none := by
  intro l
  induction l with
  | nil =>
    intro acc h1 h2
    simp at h2
    omega
  | cons c rest ih =>
    intro acc h1 h2
    unfold readBodyBufferAux
    by_cases hc : m < acc + c
    · rw [if_pos hc]
    · rw [if_neg hc]
      refine ih (acc + c) (by omega) ?_
      simp at h2
      omega

theorem readBodyBuffer_none_of_oversize (chunks : List Nat) :
    IMPORT_MAX_BYTES < chunks.sum →
    readBodyBuffer chunks IMPORT_MAX_BYTES = none := by
  intro h
  exact readBodyBufferAux_overflow IMPORT_MAX_BYTES chunks 0 (Nat.zero_le _) (by simpa using h)

theorem readBodyBufferAux_some (m : Nat) :
    ∀ (l : List Nat) (acc t : Nat), acc ≤ m →
      readBodyBufferAux m acc l = some t → t = acc + l.sum ∧ t ≤ m := by
  intro l
  induction l with
  | nil =>
    intro acc t h1 h2
    simp [readBodyBufferAux] at h2
    simp [← h2]
    omega
  | cons c rest ih =>
    intro acc t h1 h2
    unfold readBodyBufferAux at h2
    by_cases hc : m < acc + c
    · rw [if_pos hc] at h2
      exact absurd h2 (by simp)
    · rw [if_neg hc] at h2
      have := ih (acc + c) t (by omega) h2
      simp
      omega

theorem readBodyBuffer_some (chunks : List Nat) (t : Nat) :
    readBodyBuffer chunks IMPORT_MAX_BYTES = some t →
    t = chunks.sum ∧ t ≤ IMPORT_MAX_BYTES := by
  intro h
  have := readBodyBufferAux_some IMPORT_MAX_BYTES chunks 0 t (Nat.zero_le _) h
  simpa using this

/-- C5: an import payload exceeding the 250 MB ceiling aborts with an
error response before any bytes are persisted: nothing is written under
StorageRoot, the temporary file is not written, and no extraction is
attempted. -/
theorem restore_oversize_aborts (r : ImportRequest) :
    IMPORT_MAX_BYTES < r.chunks.sum →
    (importHandler r).writtenEntries = [] ∧
    (importHandler r).tmpWritten = false ∧
    (importHandler r).extractionAttempted = false ∧
    (importHandler r).status ≠ 200 := by
  intro h
  unfold importHandler
  cases hroot : (r.stateUnderData && r.wsUnderData)
  · simp
  · rw [readBodyBuffer_none_of_oversize r.chunks h]
    simp

/-- Witness for the oversize theorem at a concrete single-chunk request
one byte over the ceiling. -/
theorem restore_oversize_aborts_witness :
    (importHandler oversizeImportReq).writtenEntries = [] ∧
    (importHandler oversizeImportReq).tmpWritten = false ∧
    (importHandler oversizeImportReq).extractionAttempted = false ∧
    (importHandler oversizeImportReq).status ≠ 200 :=
  restore_oversize_aborts oversizeImportReq (by decide)

/-- C8 counterexample: an import whose extraction throws partway returns
the 500 error with the temporary archive file written but never removed,
so the temp file is not removed regardless of outcome. -/
theorem restore_tmp_left_on_extract_error :
    (importHandler throwingImportReq).tmpWritten = true ∧
    (importHandler throwingImportReq).tmpRemoved = false ∧
    (importHandler throwingImportReq).extractionAttempted = true ∧
    (importHandler throwingImportReq).status = 500 := by
  decide

/-- C8 as amended: for every import that reaches extraction, the
temporary file is removed exactly when extraction does not throw; on an
extraction error the handler returns the error and the temporary file is
left in place. -/
theorem restore_tmp_removed_iff_extract_ok (r : ImportRequest) :
    (importHandler r).extractionAttempted = true →
    (importHandler r).tmpRemoved = !r.extractThrows := by
  unfold importHandler
  cases hroot : (r.stateUnderData && r.wsUnderData)
  · simp
  · cases hb : readBodyBuffer r.chunks IMPORT_MAX_BYTES with
    | none => simp
    | some t =>
      cases ht : (t == 0)
      · have ht' : ¬ (t = 0) := by simpa using ht
        cases hx : r.extractThrows
        · cases hc : r.configuredAfter <;> simp [ht', hx]
        · simp [ht', hx]
      · have ht' : t = 0 := by simpa using ht
        simp [ht']

/-- Witness for the temp-file theorem at a concrete import whose
extraction succeeds: the temporary file is removed. -/
theorem restore_tmp_removed_witness :
    (importHandler okImportReq).tmpRemoved = !okImportReq.extractThrows :=
  restore_tmp_removed_iff_extract_ok okImportReq (by decide)

/-- C10: for every import request with both directories under
StorageRoot, the gateway is stopped before the body is read or its size
validated; and when the import fails (empty body, oversized payload, or
extraction error) the handler returns the error without restarting the
gateway, leaving it stopped. -/
theorem restore_stop_precedes_read (r : ImportRequest) :
    r.stateUnderData = true → r.wsUnderData = true →
    (importHandler r).events.take 2 = [ImportEvent.stopGateway, ImportEvent.readBody] ∧
    (r.chunks.sum = 0 ∨ IMPORT_MAX_BYTES < r.chunks.sum ∨ r.extractThrows = true →
      (importHandler r).restarted = false ∧
      (importHandler r).gatewayProcAfter = false ∧
      (importHandler r).status ≠ 200) := by
  intro h1 h2
  have hroot : (r.stateUnderData && r.wsUnderData) = true := by rw [h1, h2]; rfl
  unfold importHandler
  simp only [hroot, Bool.not_true, Bool.false_eq_true, if_false]
  cases hb : readBodyBuffer r.chunks IMPORT_MAX_BYTES with
  | none =>
    refine ⟨rfl, fun _ => ⟨rfl, rfl, ?_⟩⟩
    simp
  | some t =>
    have hsum := readBodyBuffer_some r.chunks t hb
    cases ht : (t == 0)
    · have ht' : ¬ (t = 0) := by simpa using ht
      cases hx : r.extractThrows
      · refine ⟨by cases hc : r.configuredAfter <;> simp [ht', hx, hc], fun hfail => ?_⟩
        exfalso
        rcases hfail with h0 | hov | hth
        · exact ht' (hsum.1.trans h0)
        · omega
        · exact absurd hth (by simp)
      · exact ⟨by simp [ht', hx], fun _ => ⟨by simp [ht', hx], by simp [ht', hx], by simp [ht', hx]⟩⟩
    · have ht' : t = 0 := by simpa using ht
      exact ⟨by simp [ht'], fun _ => ⟨by simp [ht'], by simp [ht'], by simp [ht']⟩⟩

/-- Witness for the stop-before-read theorem at the concrete
extraction-error request: the handler stopped the gateway first and left
it stopped after the failure. -/
theorem restore_stop_precedes_read_witness :
    (importHandler throwingImportReq).events.take 2 =
      [ImportEvent.stopGateway, ImportEvent.readBody] ∧
    (importHandler throwingImportReq).restarted = false ∧
    (importHandler throwingImportReq).gatewayProcAfter = false :=
  ⟨(restore_stop_precedes_read throwingImportReq rfl rfl).1,
    ((restore_stop_precedes_read throwingImportReq rfl rfl).2 (Or.inr (Or.inr rfl))).1,
    ((restore_stop_precedes_read throwingImportReq rfl rfl).2 (Or.inr (Or.inr rfl))).2.1⟩

end Clawdbot
